import Mathlib

/-!
Shallow embedding of the simulation/control core of
`src/components/AutonomousDrivingSimulation.jsx`: procedural road
generation, obstacle placement, the sensor model, adaptive cruise control,
lane keeping, the per-frame kinematics tick and the start/stop lifecycle.

Numbers are modelled as exact rationals.  The transcendental functions the
code calls (`Math.sin`, `Math.cos`, `Math.sqrt`) and the external
`THREE.Raycaster` intersection routine are modelled as parameters bundled
in `ThreeMath`, so every definition stays executable and every theorem is
quantified over the actual behaviour of those external calls.
-/

/-- One road segment as stored in `simulation.roadCurves`:
ground-plane position, heading angle and curvature. -/
structure Seg where
  x : ℚ
  z : ℚ
  angle : ℚ
  curvature : ℚ
deriving DecidableEq, Inhabited

/-- One placed obstacle: ground-plane position and heading
(`obstacle.position`, `obstacle.rotation.y`). -/
structure Obst where
  x : ℚ
  z : ℚ
  angle : ℚ
deriving DecidableEq, Inhabited

/-- External mathematical operations used by the simulation code:
trigonometric functions and square root (`Math.sin`, `Math.cos`,
`Math.sqrt`), and the ray/obstacle intersection query
(`THREE.Raycaster.intersectObjects` restricted to a single obstacle:
given a ray origin and direction and an obstacle, the list of
intersection distances with that obstacle's meshes). -/
structure ThreeMath where
  sinF : ℚ → ℚ
  cosF : ℚ → ℚ
  sqrtF : ℚ → ℚ
  intersect : ℚ × ℚ × ℚ → ℚ × ℚ × ℚ → Obst → List ℚ

/-- The random draws consumed during one `generateRoad` call, indexed by
segment number: `curv i` is the value of `Math.random() * 0.03 - 0.015`
drawn for segment `i`, `place i` is the outcome of
`Math.random() < 0.2`, and `sign i` the outcome of `Math.random() > 0.5`
for the lane-offset sign. -/
structure RandDraws where
  curv : ℕ → ℚ
  place : ℕ → Bool
  sign : ℕ → Bool

/-- The mutable simulation state held in `simulationRef.current` together
with the React state it drives (`isSimulationRunning`, displayed speed and
distance).  Sensor readings use `Option ℚ` with `none` playing the role of
JavaScript `Infinity`.  `car` records whether the car object has been set
up and `initialized` mirrors `simulation.initialized`. -/
structure SimState where
  roadLength : ℚ
  roadWidth : ℚ
  roadCurves : List Seg
  carSpeed : ℚ
  targetSpeed : ℚ
  carX : ℚ
  carY : ℚ
  carZ : ℚ
  carRotation : ℚ
  obstacles : List Obst
  sensorFront : Option ℚ
  sensorLeft : Option ℚ
  sensorRight : Option ℚ
  distance : ℚ
  car : Bool
  initialized : Bool
  running : Bool
  dispSpeed : ℤ
  dispDistance : ℤ
deriving DecidableEq

/-- The initial value of `simulationRef.current` (lines 13-42) combined
with the initial React state: road length 500, width 12, speed and target
speed 0.3, car at (0, 0.5, 0), all sensor readings `Infinity`, not yet
initialized, not running. -/
def init0 : SimState :=
  { roadLength := 500
    roadWidth := 12
    roadCurves := []
    carSpeed := 0.3
    targetSpeed := 0.3
    carX := 0
    carY := 0.5
    carZ := 0
    carRotation := 0
    obstacles := []
    sensorFront := none
    sensorLeft := none
    sensorRight := none
    distance := 0
    car := false
    initialized := false
    running := false
    dispSpeed := 0
    dispDistance := 0 }

/-- Rotation of a ground-plane vector by the angle `phi` in the plane
convention the code uses for `rotatedX` (`x' = x·cos φ - z·sin φ`,
`z' = x·sin φ + z·cos φ`).  Used to state the lane-keeping claim:
the lateral offset is the first component of the vehicle-to-segment
vector rotated by `-heading` (the inverse rotation). -/
def rotVec (E : ThreeMath) (phi : ℚ) (v : ℚ × ℚ) : ℚ × ℚ :=
  (v.1 * E.cosF phi - v.2 * E.sinF phi, v.1 * E.sinF phi + v.2 * E.cosF phi)

/-- Rotation of a 3D vector about the y axis by angle `theta`, as
performed by `applyQuaternion(car.quaternion)` /
`applyAxisAngle((0,1,0), θ)` in three.js: it sends the local forward
vector (0,0,1) to (sin θ, 0, cos θ). -/
def applyY (E : ThreeMath) (theta : ℚ) (v : ℚ × ℚ × ℚ) : ℚ × ℚ × ℚ :=
  (v.1 * E.cosF theta + v.2.2 * E.sinF theta,
   v.2.1,
   -(v.1 * E.sinF theta) + v.2.2 * E.cosF theta)

/-- The comparison `distance < minDistance` of the nearest-segment scan,
where `minDistance` starts out as `Infinity` (`none`). -/
def distLtMin (d : ℚ) : Option ℚ → Bool
  | none => true
  | some m => decide (d < m)

/-- The body of the nearest-segment `for` loop in `updateLaneKeeping`:
the accumulator carries `(nearestSegmentIndex, minDistance)` and `i` is
the index of the next list element. -/
def scanNearest : List ℚ → ℕ → ℕ × Option ℚ → ℕ × Option ℚ
  | [], _, acc => acc
  | d :: rest, i, acc =>
      scanNearest rest (i + 1) (if distLtMin d acc.2 then (i, some d) else acc)

/-- Index of the first element realising the minimum of `dists`, computed
exactly as the loop in `updateLaneKeeping` does (initial index 0, initial
minimum `Infinity`, strict `<` so ties keep the earlier index). -/
def nearestIdx (dists : List ℚ) : ℕ :=
  (scanNearest dists 0 (0, none)).1

/-- The per-segment distances computed inside the nearest-segment scan:
`Math.sqrt((carX - seg.x)^2 + (carZ - seg.z)^2)`. -/
def segDists (E : ThreeMath) (s : SimState) : List ℚ :=
  s.roadCurves.map fun seg => E.sqrtF ((s.carX - seg.x) ^ 2 + (s.carZ - seg.z) ^ 2)

/-- `updateLaneKeeping` (lines 443-493): find the nearest road segment by
linear scan over ground-plane Euclidean distance, rotate the car-relative
vector into the road frame with angle `-roadAngle`, apply the
proportional correction `-lateralOffset * 0.5` plus the feed-forward term
`curvature * 10`, and add the result scaled by the current speed to the
car's heading.  No-op when the car is missing or the segment list is
empty (line 445). -/
def updateLaneKeeping (E : ThreeMath) (s : SimState) : SimState :=
  if s.car = false ∨ s.roadCurves = [] then s else
  let nearestSegmentIndex := nearestIdx (segDists E s)
  let currentSegment := s.roadCurves.getD nearestSegmentIndex default
  let roadAngle := currentSegment.angle
  let relativeX := s.carX - currentSegment.x
  let relativeZ := s.carZ - currentSegment.z
  let rotatedX := relativeX * E.cosF (-roadAngle) - relativeZ * E.sinF (-roadAngle)
  let lateralOffset := rotatedX
  let steeringCorrection := -lateralOffset * 0.5
  let predictiveSteering := currentSegment.curvature * 10
  { s with carRotation := s.carRotation + (steeringCorrection + predictiveSteering) * s.carSpeed }

/-- `updateAdaptiveCruiseControl` (lines 425-440): with base speed 0.3,
if the front sensor reading is below 10 set the target speed to
`0.3 * max(0.1, frontDistance / 10)`, otherwise to 0.3.  A reading of
`Infinity` (`none`) never satisfies `frontDistance < 10`. -/
def updateAdaptiveCruiseControl (s : SimState) : SimState :=
  match s.sensorFront with
  | none => { s with targetSpeed := 0.3 }
  | some frontDistance =>
      if frontDistance < 10 then
        { s with targetSpeed := 0.3 * max 0.1 (frontDistance / 10) }
      else
        { s with targetSpeed := 0.3 }

/-- Spec-side cruise-control contract `regulate(forwardClearance,
baseSpeed)`: linear slowdown `baseSpeed * max(0.1, clearance / 10)` below
clearance 10, with a floor at 10% of base speed, otherwise `baseSpeed`;
an infinite clearance (`none`) yields `baseSpeed`. -/
def regulate (forwardClearance : Option ℚ) (baseSpeed : ℚ) : ℚ :=
  match forwardClearance with
  | none => baseSpeed
  | some d => if d < 10 then baseSpeed * max 0.1 (d / 10) else baseSpeed

/-- Insertion of a distance into an ascending list of distances. -/
def insertAsc (d : ℚ) : List ℚ → List ℚ
  | [] => [d]
  | x :: xs => if d ≤ x then d :: x :: xs else x :: insertAsc d xs

/-- Ascending insertion sort of a list of intersection distances;
`THREE.Raycaster.intersectObjects` returns its hits sorted this way. -/
def sortHits : List ℚ → List ℚ
  | [] => []
  | x :: xs => insertAsc x (sortHits xs)

/-- Minimum of a list of intersection distances, `none` (`Infinity`)
when there is no hit.  This is the claim-side description of a sensor
reading. -/
def minDist : List ℚ → Option ℚ
  | [] => none
  | d :: rest =>
      some (match minDist rest with
            | none => d
            | some v => min d v)

/-- World position of a sensor mounted on the car at the local offset
`loc`: the car's position plus the offset rotated by the car's heading
(`getWorldPosition` of a child of the rotated car group). -/
def sensorWorldPos (E : ThreeMath) (s : SimState) (loc : ℚ × ℚ × ℚ) : ℚ × ℚ × ℚ :=
  let r := applyY E s.carRotation loc
  (s.carX + r.1, s.carY + r.2.1, s.carZ + r.2.2)

/-- All intersection distances of the ray from `pos` in direction `dir`
with the current obstacle set, sorted ascending — the model of
`raycaster.intersectObjects(simulation.obstacles, true)`. -/
def rayHits (E : ThreeMath) (s : SimState) (pos dir : ℚ × ℚ × ℚ) : List ℚ :=
  sortHits (s.obstacles.flatMap (E.intersect pos dir))

/-- `updateSensors` (lines 371-422): for each of the front, left and
right sensors cast a ray from the sensor's world position along the
sensor direction rotated by the car's heading, and store the distance of
the first (nearest) intersection, or `Infinity` (`none`) when the ray
hits nothing.  No-op when the car (and hence its sensor meshes) has not
been set up (line 373). -/
def updateSensors (E : ThreeMath) (s : SimState) : SimState :=
  if s.car = false then s else
  { s with
    sensorFront :=
      (rayHits E s (sensorWorldPos E s (0, 0.5, 2)) (applyY E s.carRotation (0, 0, 1))).head?
    sensorLeft :=
      (rayHits E s (sensorWorldPos E s (-1, 0.5, 0)) (applyY E s.carRotation (-1, 0, 0))).head?
    sensorRight :=
      (rayHits E s (sensorWorldPos E s (1, 0.5, 0)) (applyY E s.carRotation (1, 0, 0))).head? }

/-- The road-curve generation loop of `generateRoad` (lines 276-296):
starting from the current `(x, z, angle)` produce `n` further segments;
segment `i` has curvature 0 for `i < 3` and the random draw `curvRand i`
otherwise, and between consecutive segments the angle grows by the
curvature and the position advances by `segmentLength` along the updated
angle. -/
def genCurvesAux (E : ThreeMath) (curvRand : ℕ → ℚ) (segmentLength : ℚ) :
    ℕ → ℕ → ℚ → ℚ → ℚ → List Seg
  | 0, _, _, _, _ => []
  | n + 1, i, x, z, ang =>
      let curvature := if i < 3 then 0 else curvRand i
      let newAng := ang + curvature
      { x := x, z := z, angle := ang, curvature := curvature } ::
        genCurvesAux E curvRand segmentLength n (i + 1)
          (x + E.sinF newAng * segmentLength) (z + E.cosF newAng * segmentLength) newAng

/-- The 20 road segments generated by one `generateRoad` call, starting
at the origin with heading 0. -/
def genCurves (E : ThreeMath) (curvRand : ℕ → ℚ) (segmentLength : ℚ) : List Seg :=
  genCurvesAux E curvRand segmentLength 20 0 0 0 0

/-- The obstacle-placement part of the segment loop in `generateRoad`
(lines 314-329): for each segment index `i`, when the Bernoulli draw
succeeds and `i > 3`, place one obstacle at the segment position offset
by `laneOffset = ±(roadWidth / 4)` scaled along
`(sin(angle), cos(angle))`, with the obstacle's heading equal to the
segment angle. -/
def placeObstaclesAux (E : ThreeMath) (placeRand signRand : ℕ → Bool) (roadWidth : ℚ) :
    ℕ → List Seg → List Obst
  | _, [] => []
  | i, seg :: rest =>
      let tail := placeObstaclesAux E placeRand signRand roadWidth (i + 1) rest
      if placeRand i = true ∧ 3 < i then
        let laneOffset := (if signRand i = true then 1 else -1) * (roadWidth / 4)
        { x := seg.x + E.sinF seg.angle * laneOffset,
          z := seg.z + E.cosF seg.angle * laneOffset,
          angle := seg.angle } :: tail
      else tail

/-- All obstacles placed while generating a road. -/
def placeObstacles (E : ThreeMath) (placeRand signRand : ℕ → Bool) (roadWidth : ℚ)
    (curves : List Seg) : List Obst :=
  placeObstaclesAux E placeRand signRand roadWidth 0 curves

/-- Spec-side obstacle placement: the segment position offset laterally
— perpendicular to the segment heading, in the frame in which the
segment's forward direction is `(sin θ, cos θ)`, so the lateral axis is
`(cos θ, -sin θ)` — by the signed lane offset. -/
def obstaclePosLateral (E : ThreeMath) (seg : Seg) (laneOffset : ℚ) : ℚ × ℚ :=
  (seg.x + E.cosF seg.angle * laneOffset, seg.z - E.sinF seg.angle * laneOffset)

/-- `generateRoad` (lines 240-348) restricted to simulation state:
regenerate the 20 road curves (segment length `roadLength / 20`),
replace the obstacle set, reset the car to `(0, 0.5, 0)` with heading 0,
and reset the distance counter and the displayed distance and speed to
0.  The current speed and target speed are not touched. -/
def generateRoad (E : ThreeMath) (r : RandDraws) (s : SimState) : SimState :=
  let segmentLength := s.roadLength / 20
  let curves := genCurves E r.curv segmentLength
  { s with
    roadCurves := curves
    obstacles := placeObstacles E r.place r.sign s.roadWidth curves
    carX := 0
    carY := 0.5
    carZ := 0
    carRotation := 0
    distance := 0
    dispDistance := 0
    dispSpeed := 0 }

/-- The body of one `updateSimulation` tick with elapsed time `delta`
(lines 500-536), before the end-of-road check: run cruise control when
enabled, smooth the speed toward the
target with factor 0.1, advance the position by
`carSpeed * delta * 20` along `(sin(carRotation), 0, cos(carRotation))`,
accumulate the distance and refresh the displayed values, run lane
keeping when enabled, recompute the sensors. -/
def tickCore (E : ThreeMath) (delta : ℚ) (laneActive cruiseActive : Bool)
    (s : SimState) : SimState :=
  let s1 := if cruiseActive then updateAdaptiveCruiseControl s else s
  let newSpeed := s1.carSpeed + (s1.targetSpeed - s1.carSpeed) * 0.1
  let distanceStep := newSpeed * delta * 20
  let s2 :=
    { s1 with
      carSpeed := newSpeed
      carX := s1.carX + E.sinF s1.carRotation * distanceStep
      carZ := s1.carZ + E.cosF s1.carRotation * distanceStep
      distance := s1.distance + distanceStep
      dispDistance := (s1.distance + distanceStep).floor
      dispSpeed := (newSpeed * 100).floor }
  let s3 := if laneActive then updateLaneKeeping E s2 else s2
  updateSensors E s3

/-- `updateSimulation` (lines 496-543): no-op when the car is missing or
the state is not initialized; otherwise run the tick body and finally
clear the running flag when the accumulated distance exceeds the road
length. -/
def updateSimulation (E : ThreeMath) (delta : ℚ) (laneActive cruiseActive : Bool)
    (s : SimState) : SimState :=
  if s.car = false ∨ s.initialized = false then s else
  let s4 := tickCore E delta laneActive cruiseActive s
  if s4.distance > s4.roadLength then { s4 with running := false } else s4

/-- One animation frame (lines 546-558): the tick runs only while the
simulation is running. -/
def frameStep (E : ThreeMath) (delta : ℚ) (laneActive cruiseActive : Bool)
    (s : SimState) : SimState :=
  if s.running then updateSimulation E delta laneActive cruiseActive s else s

/-- `handleStartSimulation` (lines 664-674): only when the simulation is
not already running, regenerate the road and set the running flag. -/
def handleStartSimulation (E : ThreeMath) (r : RandDraws) (s : SimState) : SimState :=
  if s.running then s
  else { generateRoad E r s with running := true }

/-- `handleStopSimulation` (lines 677-681): clear the running flag. -/
def handleStopSimulation (s : SimState) : SimState :=
  if s.running then { s with running := false } else s

/-- The commands the host/presentation layer can feed the core: an
animation frame with its elapsed time and the two toggle values, the
start and stop buttons, and the mount-time initialization (car setup,
initial road generation, `initialized := true`). -/
inductive Ev where
  | frame (delta : ℚ) (laneActive cruiseActive : Bool)
  | start (r : RandDraws)
  | stop
  | init (r : RandDraws)

/-- Effect of one event on the simulation state. -/
def stepEv (E : ThreeMath) (s : SimState) : Ev → SimState
  | .frame delta laneActive cruiseActive => frameStep E delta laneActive cruiseActive s
  | .start r => handleStartSimulation E r s
  | .stop => handleStopSimulation s
  | .init r =>
      let s1 := generateRoad E r { s with car := true }
      { s1 with initialized := true }

/-- Run a sequence of events from a starting state. -/
def runEvs (E : ThreeMath) (s : SimState) (evs : List Ev) : SimState :=
  evs.foldl (stepEv E) s

/-- Run `k` animation frames, frame `j` receiving elapsed time and
toggle values `u j`. -/
def runFrames (E : ThreeMath) (u : ℕ → ℚ × Bool × Bool) (s : SimState) : ℕ → SimState
  | 0 => s
  | k + 1 =>
      frameStep E (u k).1 (u k).2.1 (u k).2.2 (runFrames E u s k)

/-- Concrete instantiation of the external operations used by witnesses:
the constant functions `sin = 0`, `cos = 1` (the exact values at angle
0), the identity as square root, and a raycaster that never hits. -/
def E0 : ThreeMath :=
  { sinF := fun _ => 0
    cosF := fun _ => 1
    sqrtF := fun q => q
    intersect := fun _ _ _ => [] }

/-- Concrete random draws used by witnesses: constant curvature draw
1/100, obstacle placement succeeding exactly at segment 4, lane-offset
sign always positive. -/
def r0 : RandDraws :=
  { curv := fun _ => 1 / 100
    place := fun i => decide (i = 4)
    sign := fun _ => true }

/-- A five-segment straight road used to exhibit the obstacle-placement
divergence: segments at z = 0, 25, 50, 75, 100, all with heading 0. -/
def curves5 : List Seg :=
  [{ x := 0, z := 0, angle := 0, curvature := 0 },
   { x := 0, z := 25, angle := 0, curvature := 0 },
   { x := 0, z := 50, angle := 0, curvature := 0 },
   { x := 0, z := 75, angle := 0, curvature := 0 },
   { x := 0, z := 100, angle := 0, curvature := 0 }]

/-- A running, initialized state with two road segments and the car at
the origin, used by the lane-keeping witness. -/
def wit1 : SimState :=
  { init0 with
    car := true
    initialized := true
    carSpeed := 1
    roadCurves :=
      [{ x := 0, z := 0, angle := 0, curvature := 0 },
       { x := 3, z := 4, angle := 0, curvature := 1 }] }

/-- An initialized, running state with the initial pose and no
obstacles, used by the kinematics and termination witnesses. -/
def wit5 : SimState :=
  { init0 with car := true, initialized := true, running := true }

/-- A running state with nonzero accumulated distance, exhibiting that
the start command is a no-op while running. -/
def cex8 : SimState :=
  { init0 with running := true, distance := 5 }

/-- Constant frame inputs for trace witnesses: elapsed time 1/20 with
both controllers enabled. -/
def u0 : ℕ → ℚ × Bool × Bool := fun _ => (1 / 20, true, true)

/-- Full characterisation of the nearest-segment scan loop: starting
from accumulator `a` at index `i`, either no list element is strictly
below the accumulated minimum and the accumulator survives, or the
result is the first list element realising the strict improvement and
the minimum of the list. -/
theorem scanNearest_spec (l : List ℚ) : ∀ (i : ℕ) (a : ℕ × Option ℚ),
    (scanNearest l i a = a ∧ ∀ j, j < l.length → distLtMin (l.getD j 0) a.2 = false) ∨
    (∃ j, j < l.length ∧ (scanNearest l i a).1 = i + j ∧
      (scanNearest l i a).2 = some (l.getD j 0) ∧
      distLtMin (l.getD j 0) a.2 = true ∧
      (∀ k, k < j → l.getD j 0 < l.getD k 0) ∧
      (∀ k, k < l.length → l.getD j 0 ≤ l.getD k 0)) := by
  induction l with
  | nil =>
      intro i a
      left
      refine ⟨rfl, ?_⟩
      intro j hj
      simp at hj
  | cons d rest ih =>
      intro i a
      by_cases hd : distLtMin d a.2 = true
      · have hstep : scanNearest (d :: rest) i a = scanNearest rest (i + 1) (i, some d) := by
          simp [scanNearest, hd]
        rcases ih (i + 1) (i, some d) with ⟨heq, hall⟩ | ⟨j, hj, h1, h2, h3, h4, h5⟩
        · right
          refine ⟨0, by simp, ?_, ?_, ?_, ?_, ?_⟩
          · rw [hstep, heq]
            rfl
          · rw [hstep, heq, List.getD_cons_zero]
          · rw [List.getD_cons_zero]; exact hd
          · intro k hk; exact absurd hk (Nat.not_lt_zero k)
          · intro k hk
            rw [List.getD_cons_zero]
            cases k with
            | zero => rw [List.getD_cons_zero]
            | succ k0 =>
                rw [List.getD_cons_succ]
                have hk0 : k0 < rest.length := by simpa using hk
                have := hall k0 hk0
                simp only [distLtMin, decide_eq_false_iff_not] at this
                exact le_of_not_lt this
        · right
          have hjd : rest.getD j 0 < d := by
            simpa only [distLtMin, decide_eq_true_eq] using h3
          refine ⟨j + 1, by simpa using hj, ?_, ?_, ?_, ?_, ?_⟩
          · rw [hstep, h1]; omega
          · rw [hstep, h2, List.getD_cons_succ]
          · rw [List.getD_cons_succ]
            cases ha : a.2 with
            | none => simp only [distLtMin]
            | some m =>
                have hdm : d < m := by
                  rw [ha] at hd
                  simpa only [distLtMin, decide_eq_true_eq] using hd
                simp only [distLtMin, decide_eq_true_eq]
                exact lt_trans hjd hdm
          · intro k hk
            rw [List.getD_cons_succ]
            cases k with
            | zero => rw [List.getD_cons_zero]; exact hjd
            | succ k0 =>
                rw [List.getD_cons_succ]
                exact h4 k0 (by omega)
          · intro k hk
            rw [List.getD_cons_succ]
            cases k with
            | zero => rw [List.getD_cons_zero]; exact le_of_lt hjd
            | succ k0 =>
                rw [List.getD_cons_succ]
                exact h5 k0 (by simpa using hk)
      · have hd' : distLtMin d a.2 = false := by
          exact Bool.eq_false_iff.mpr hd
        have hstep : scanNearest (d :: rest) i a = scanNearest rest (i + 1) a := by
          simp [scanNearest, hd']
        obtain ⟨m, hm⟩ : ∃ m, a.2 = some m := by
          cases ha : a.2 with
          | none => rw [ha] at hd'; simp [distLtMin] at hd'
          | some m => exact ⟨m, rfl⟩
        have hmd : m ≤ d := by
          rw [hm] at hd'
          simp only [distLtMin, decide_eq_false_iff_not] at hd'
          exact le_of_not_lt hd'
        rcases ih (i + 1) a with ⟨heq, hall⟩ | ⟨j, hj, h1, h2, h3, h4, h5⟩
        · left
          refine ⟨by rw [hstep, heq], ?_⟩
          intro j hjlen
          cases j with
          | zero => rw [List.getD_cons_zero]; exact hd'
          | succ j0 =>
              rw [List.getD_cons_succ]
              exact hall j0 (by simpa using hjlen)
        · right
          have hjm : rest.getD j 0 < m := by
            simpa [distLtMin, hm] using h3
          have hjd : rest.getD j 0 < d := lt_of_lt_of_le hjm hmd
          refine ⟨j + 1, by simpa using hj, ?_, ?_, ?_, ?_, ?_⟩
          · rw [hstep, h1]; omega
          · rw [hstep, h2, List.getD_cons_succ]
          · rw [List.getD_cons_succ]; exact h3
          · intro k hk
            rw [List.getD_cons_succ]
            cases k with
            | zero => rw [List.getD_cons_zero]; exact hjd
            | succ k0 =>
                rw [List.getD_cons_succ]
                exact h4 k0 (by omega)
          · intro k hk
            rw [List.getD_cons_succ]
            cases k with
            | zero => rw [List.getD_cons_zero]; exact le_of_lt hjd
            | succ k0 =>
                rw [List.getD_cons_succ]
                exact h5 k0 (by simpa using hk)

/-- The scan of `updateLaneKeeping` returns the lowest index realising
the minimum distance: the result is a valid index, its value is a lower
bound of the whole list, and it is strictly below every earlier
element. -/
theorem nearestIdx_spec (l : List ℚ) (h : l ≠ []) :
    nearestIdx l < l.length ∧
    (∀ k, k < l.length → l.getD (nearestIdx l) 0 ≤ l.getD k 0) ∧
    (∀ k, k < nearestIdx l → l.getD (nearestIdx l) 0 < l.getD k 0) := by
  have hlen : 0 < l.length := List.length_pos.mpr h
  rcases scanNearest_spec l 0 (0, none) with ⟨_, hall⟩ | ⟨j, hj, h1, _, _, h4, h5⟩
  · have := hall 0 hlen
    simp [distLtMin] at this
  · have hn : nearestIdx l = j := by simpa [nearestIdx] using h1
    rw [hn]
    exact ⟨hj, h5, h4⟩

/-- The head of an ascending insertion is the smaller of the inserted
element and the previous head. -/
theorem insertAsc_head (d : ℚ) (l : List ℚ) :
    (insertAsc d l).head? =
      some (match l.head? with
            | none => d
            | some x => min d x) := by
  cases l with
  | nil => rfl
  | cons x xs =>
      by_cases hdx : d ≤ x
      · simp [insertAsc, hdx, min_eq_left hdx]
      · have hxd : x ≤ d := le_of_not_le hdx
        simp [insertAsc, hdx, min_eq_right hxd]

/-- The first element of the sorted hit list is the minimum hit
distance. -/
theorem sortHits_head (l : List ℚ) : (sortHits l).head? = minDist l := by
  induction l with
  | nil => rfl
  | cons d rest ih =>
      show (insertAsc d (sortHits rest)).head? = minDist (d :: rest)
      rw [insertAsc_head, ih]
      cases h : minDist rest <;> simp [minDist, h]

/-- Lane keeping changes only the car's heading. -/
@[simp] theorem updateLaneKeeping_proj (E : ThreeMath) (s : SimState) :
    (updateLaneKeeping E s).roadLength = s.roadLength ∧
    (updateLaneKeeping E s).roadWidth = s.roadWidth ∧
    (updateLaneKeeping E s).roadCurves = s.roadCurves ∧
    (updateLaneKeeping E s).carSpeed = s.carSpeed ∧
    (updateLaneKeeping E s).targetSpeed = s.targetSpeed ∧
    (updateLaneKeeping E s).carX = s.carX ∧
    (updateLaneKeeping E s).carY = s.carY ∧
    (updateLaneKeeping E s).carZ = s.carZ ∧
    (updateLaneKeeping E s).obstacles = s.obstacles ∧
    (updateLaneKeeping E s).sensorFront = s.sensorFront ∧
    (updateLaneKeeping E s).distance = s.distance ∧
    (updateLaneKeeping E s).car = s.car ∧
    (updateLaneKeeping E s).initialized = s.initialized ∧
    (updateLaneKeeping E s).running = s.running ∧
    (updateLaneKeeping E s).dispSpeed = s.dispSpeed ∧
    (updateLaneKeeping E s).dispDistance = s.dispDistance := by
  unfold updateLaneKeeping
  split <;> exact ⟨rfl, rfl, rfl, rfl, rfl, rfl, rfl, rfl, rfl, rfl, rfl, rfl, rfl, rfl, rfl, rfl⟩

/-- The sensor update changes only the three sensor readings. -/
@[simp] theorem updateSensors_proj (E : ThreeMath) (s : SimState) :
    (updateSensors E s).roadLength = s.roadLength ∧
    (updateSensors E s).roadWidth = s.roadWidth ∧
    (updateSensors E s).roadCurves = s.roadCurves ∧
    (updateSensors E s).carSpeed = s.carSpeed ∧
    (updateSensors E s).targetSpeed = s.targetSpeed ∧
    (updateSensors E s).carX = s.carX ∧
    (updateSensors E s).carY = s.carY ∧
    (updateSensors E s).carZ = s.carZ ∧
    (updateSensors E s).carRotation = s.carRotation ∧
    (updateSensors E s).obstacles = s.obstacles ∧
    (updateSensors E s).distance = s.distance ∧
    (updateSensors E s).car = s.car ∧
    (updateSensors E s).initialized = s.initialized ∧
    (updateSensors E s).running = s.running ∧
    (updateSensors E s).dispSpeed = s.dispSpeed ∧
    (updateSensors E s).dispDistance = s.dispDistance := by
  unfold updateSensors
  split <;> exact ⟨rfl, rfl, rfl, rfl, rfl, rfl, rfl, rfl, rfl, rfl, rfl, rfl, rfl, rfl, rfl, rfl⟩

/-- Adaptive cruise control changes only the target speed. -/
@[simp] theorem updateAdaptiveCruiseControl_proj (s : SimState) :
    (updateAdaptiveCruiseControl s).roadLength = s.roadLength ∧
    (updateAdaptiveCruiseControl s).roadWidth = s.roadWidth ∧
    (updateAdaptiveCruiseControl s).roadCurves = s.roadCurves ∧
    (updateAdaptiveCruiseControl s).carSpeed = s.carSpeed ∧
    (updateAdaptiveCruiseControl s).carX = s.carX ∧
    (updateAdaptiveCruiseControl s).carY = s.carY ∧
    (updateAdaptiveCruiseControl s).carZ = s.carZ ∧
    (updateAdaptiveCruiseControl s).carRotation = s.carRotation ∧
    (updateAdaptiveCruiseControl s).obstacles = s.obstacles ∧
    (updateAdaptiveCruiseControl s).sensorFront = s.sensorFront ∧
    (updateAdaptiveCruiseControl s).distance = s.distance ∧
    (updateAdaptiveCruiseControl s).car = s.car ∧
    (updateAdaptiveCruiseControl s).initialized = s.initialized ∧
    (updateAdaptiveCruiseControl s).running = s.running ∧
    (updateAdaptiveCruiseControl s).dispSpeed = s.dispSpeed ∧
    (updateAdaptiveCruiseControl s).dispDistance = s.dispDistance := by
  unfold updateAdaptiveCruiseControl
  cases s.sensorFront with
  | none => exact ⟨rfl, rfl, rfl, rfl, rfl, rfl, rfl, rfl, rfl, rfl, rfl, rfl, rfl, rfl, rfl, rfl⟩
  | some d =>
      by_cases hd : d < 10 <;> simp [hd]

/-- Claim C2: for every forward clearance `d` and base speed 0.3, the
cruise controller sets `targetSpeed = 0.3 * max(0.1, d / 10)` when
`d < 10` and `targetSpeed = 0.3` otherwise (an infinite clearance giving
0.3); in particular `regulate(5, 0.3) = 0.15`, `regulate(20, 0.3) = 0.3`
and `regulate(0, 0.3) = 0.03`. -/
theorem claim2_cruise_regulation (s : SimState) :
    (updateAdaptiveCruiseControl s).targetSpeed = regulate s.sensorFront 0.3 ∧
    regulate (some 5) 0.3 = 0.15 ∧
    regulate (some 20) 0.3 = 0.3 ∧
    regulate (some 0) 0.3 = 0.03 := by
  refine ⟨?_, by norm_num [regulate], by norm_num [regulate], by norm_num [regulate]⟩
  unfold updateAdaptiveCruiseControl regulate
  cases s.sensorFront with
  | none => rfl
  | some d => by_cases hd : d < 10 <;> simp [hd]

/-- Claim C1: on a tick with a non-empty segment list (and the car set
up), lane keeping adds exactly
`(-lateralOffset * 0.5 + curvature * 10) * carSpeed` to the heading,
where the segment is the nearest one — the scan result is a valid index
whose distance is minimal over all segments and strictly below every
earlier segment's distance (ties to the lowest index) — and
`lateralOffset` is the first component of the vehicle-to-segment vector
inverse-rotated by the segment's heading. -/
theorem claim1_lane_keeping (E : ThreeMath) (s : SimState)
    (hcar : s.car = true) (hne : s.roadCurves ≠ []) :
    let dists := segDists E s
    let n := nearestIdx dists
    let seg := s.roadCurves.getD n default
    let lateralOffset := (rotVec E (-seg.angle) (s.carX - seg.x, s.carZ - seg.z)).1
    (updateLaneKeeping E s).carRotation =
        s.carRotation + (-lateralOffset * 0.5 + seg.curvature * 10) * s.carSpeed ∧
    n < s.roadCurves.length ∧
    (∀ k, k < dists.length → dists.getD n 0 ≤ dists.getD k 0) ∧
    (∀ k, k < n → dists.getD n 0 < dists.getD k 0) := by
  intro dists n seg lateralOffset
  have hguard : ¬(s.car = false ∨ s.roadCurves = []) := by
    simp [hcar, hne]
  have hdne : dists ≠ [] := by
    simp only [dists, segDists, ne_eq, List.map_eq_nil_iff]
    exact hne
  obtain ⟨h1, h2, h3⟩ := nearestIdx_spec dists hdne
  have hlen : dists.length = s.roadCurves.length := by
    simp [dists, segDists]
  refine ⟨?_, by rw [← hlen]; exact h1, h2, h3⟩
  unfold updateLaneKeeping
  rw [if_neg hguard]
  rfl

/-- Witness for claim C1: the lane-keeping control law evaluated on a
concrete two-segment road with the car at the origin. -/
theorem claim1_lane_keeping_witness :
    let dists := segDists E0 wit1
    let n := nearestIdx dists
    let seg := wit1.roadCurves.getD n default
    let lateralOffset := (rotVec E0 (-seg.angle) (wit1.carX - seg.x, wit1.carZ - seg.z)).1
    (updateLaneKeeping E0 wit1).carRotation =
        wit1.carRotation + (-lateralOffset * 0.5 + seg.curvature * 10) * wit1.carSpeed ∧
    n < wit1.roadCurves.length ∧
    (∀ k, k < dists.length → dists.getD n 0 ≤ dists.getD k 0) ∧
    (∀ k, k < n → dists.getD n 0 < dists.getD k 0) :=
  claim1_lane_keeping E0 wit1 rfl (by decide)

/-- The obstacle loop places nothing while the running index keeps the
total below 5: segments at indices 0..3 never receive an obstacle. -/
theorem placeObstaclesAux_nil_of_le (E : ThreeMath) (pr sr : ℕ → Bool) (w : ℚ) :
    ∀ (l : List Seg) (i : ℕ), i + l.length ≤ 4 → placeObstaclesAux E pr sr w i l = [] := by
  intro l
  induction l with
  | nil => intro i _; rfl
  | cons seg rest ih =>
      intro i h
      have hlen : i + rest.length + 1 ≤ 4 := by
        simp only [List.length_cons] at h
        omega
      unfold placeObstaclesAux
      rw [if_neg]
      · exact ih (i + 1) (by omega)
      · rintro ⟨_, hlt⟩
        omega

/-- Claim C3 (divergence between spec and code): restricting any road to
its first 4 segments indeed yields no obstacles (the exclusion window is
respected, and the placed obstacle inherits the segment heading), but
the placed position is the segment position offset *along* the segment
heading — direction `(sin θ, cos θ)`, the forward axis — not laterally.
On a straight segment with heading 0 at (0, 100) and lane offset +3 the
code places the obstacle at (0, 103), on the road's centerline, while
the lateral placement the claim describes is (3, 100). -/
theorem claim3_obstacle_offset :
    (∀ (E : ThreeMath) (pr sr : ℕ → Bool) (w : ℚ) (curves : List Seg),
        placeObstacles E pr sr w (curves.take 4) = []) ∧
    placeObstacles E0 r0.place r0.sign 12 curves5 =
      [{ x := 0, z := 103, angle := 0 }] ∧
    obstaclePosLateral E0 { x := 0, z := 100, angle := 0, curvature := 0 } 3 = (3, 100) ∧
    ((0 : ℚ), (103 : ℚ)) ≠ ((3 : ℚ), (100 : ℚ)) := by
  refine ⟨?_, ?_, ?_, by norm_num⟩
  · intro E pr sr w curves
    apply placeObstaclesAux_nil_of_le
    have := List.length_take_le 4 curves
    omega
  · simp only [placeObstacles, placeObstaclesAux, curves5, E0, r0]
    norm_num
  · norm_num [obstaclePosLateral, E0]

/-- The road-curve generation loop produces exactly the requested number
of segments. -/
theorem genCurvesAux_length (E : ThreeMath) (cr : ℕ → ℚ) (L : ℚ) :
    ∀ (n i : ℕ) (x z ang : ℚ), (genCurvesAux E cr L n i x z ang).length = n := by
  intro n
  induction n with
  | zero => intro i x z ang; rfl
  | succ m ih =>
      intro i x z ang
      simp only [genCurvesAux, List.length_cons, ih]

/-- Recurrence between consecutive generated segments: the angle grows
by the previous segment's curvature and the position advances by the
segment length along the updated angle. -/
theorem genCurvesAux_adjacent (E : ThreeMath) (cr : ℕ → ℚ) (L : ℚ) :
    ∀ (n i : ℕ) (x z ang : ℚ) (k : ℕ), k + 1 < n →
    ((genCurvesAux E cr L n i x z ang).getD (k + 1) default).angle =
        ((genCurvesAux E cr L n i x z ang).getD k default).angle +
        ((genCurvesAux E cr L n i x z ang).getD k default).curvature ∧
    ((genCurvesAux E cr L n i x z ang).getD (k + 1) default).x =
        ((genCurvesAux E cr L n i x z ang).getD k default).x +
        E.sinF (((genCurvesAux E cr L n i x z ang).getD (k + 1) default).angle) * L ∧
    ((genCurvesAux E cr L n i x z ang).getD (k + 1) default).z =
        ((genCurvesAux E cr L n i x z ang).getD k default).z +
        E.cosF (((genCurvesAux E cr L n i x z ang).getD (k + 1) default).angle) * L := by
  intro n
  induction n with
  | zero =>
      intro i x z ang k hk
      exact absurd hk (by omega)
  | succ m ih =>
      intro i x z ang k hk
      cases k with
      | zero =>
          cases m with
          | zero => exact absurd hk (by omega)
          | succ m0 => exact ⟨rfl, rfl, rfl⟩
      | succ k0 =>
          have h0 : k0 + 1 < m := by omega
          have hrec := ih (i + 1) (x + E.sinF (ang + (if i < 3 then 0 else cr i)) * L)
            (z + E.cosF (ang + (if i < 3 then 0 else cr i)) * L)
            (ang + (if i < 3 then 0 else cr i)) k0 h0
          simpa only [genCurvesAux, List.getD_cons_succ] using hrec

/-- Claim C6: in every generated road, the heading of segment `i+1` is
the heading of segment `i` plus the curvature of segment `i`, and the
position of segment `i+1` is the position of segment `i` advanced by the
segment length (`roadLength / 20`) along the heading at that point
(`Δx = sin(heading)·L`, `Δz = cos(heading)·L` with the heading the loop
is advancing along, i.e. the updated heading of segment `i+1`). -/
theorem claim6_road_recurrence (E : ThreeMath) (r : RandDraws) (s : SimState) (k : ℕ)
    (hk : k + 1 < (generateRoad E r s).roadCurves.length) :
    let l := (generateRoad E r s).roadCurves
    (l.getD (k + 1) default).angle =
        (l.getD k default).angle + (l.getD k default).curvature ∧
    (l.getD (k + 1) default).x =
        (l.getD k default).x +
          E.sinF ((l.getD (k + 1) default).angle) * (s.roadLength / 20) ∧
    (l.getD (k + 1) default).z =
        (l.getD k default).z +
          E.cosF ((l.getD (k + 1) default).angle) * (s.roadLength / 20) := by
  intro l
  have hlen : l.length = 20 :=
    genCurvesAux_length E r.curv (s.roadLength / 20) 20 0 0 0 0
  have hk20 : k + 1 < 20 := by
    rw [← hlen]
    exact hk
  exact genCurvesAux_adjacent E r.curv (s.roadLength / 20) 20 0 0 0 0 k hk20

/-- Witness for claim C6: the recurrence between the first two segments
of a concretely generated road. -/
theorem claim6_road_recurrence_witness :
    let l := (generateRoad E0 r0 init0).roadCurves
    (l.getD 1 default).angle =
        (l.getD 0 default).angle + (l.getD 0 default).curvature ∧
    (l.getD 1 default).x =
        (l.getD 0 default).x +
          E0.sinF ((l.getD 1 default).angle) * (init0.roadLength / 20) ∧
    (l.getD 1 default).z =
        (l.getD 0 default).z +
          E0.cosF ((l.getD 1 default).angle) * (init0.roadLength / 20) :=
  claim6_road_recurrence E0 r0 init0 0
    (by
      rw [show (generateRoad E0 r0 init0).roadCurves.length = 20 from
        genCurvesAux_length E0 r0.curv (init0.roadLength / 20) 20 0 0 0 0]
      norm_num)

/-- Claim C7: for every vehicle pose and obstacle set (with the car set
up), each sensor reading equals the minimum intersection distance among
all obstacle hits along that sensor's ray, `Infinity` (`none`) when
there is no hit; in particular with an empty obstacle set all three
readings are `Infinity`. -/
theorem claim7_sensor_readings (E : ThreeMath) (s : SimState) (hcar : s.car = true) :
    (updateSensors E s).sensorFront =
        minDist (s.obstacles.flatMap
          (E.intersect (sensorWorldPos E s (0, 0.5, 2)) (applyY E s.carRotation (0, 0, 1)))) ∧
    (updateSensors E s).sensorLeft =
        minDist (s.obstacles.flatMap
          (E.intersect (sensorWorldPos E s (-1, 0.5, 0)) (applyY E s.carRotation (-1, 0, 0)))) ∧
    (updateSensors E s).sensorRight =
        minDist (s.obstacles.flatMap
          (E.intersect (sensorWorldPos E s (1, 0.5, 0)) (applyY E s.carRotation (1, 0, 0)))) ∧
    (s.obstacles = [] →
      (updateSensors E s).sensorFront = none ∧
      (updateSensors E s).sensorLeft = none ∧
      (updateSensors E s).sensorRight = none) := by
  have hguard : ¬ s.car = false := by simp [hcar]
  have h1 : (updateSensors E s).sensorFront =
      minDist (s.obstacles.flatMap
        (E.intersect (sensorWorldPos E s (0, 0.5, 2)) (applyY E s.carRotation (0, 0, 1)))) := by
    unfold updateSensors
    rw [if_neg hguard]
    exact sortHits_head _
  have h2 : (updateSensors E s).sensorLeft =
      minDist (s.obstacles.flatMap
        (E.intersect (sensorWorldPos E s (-1, 0.5, 0)) (applyY E s.carRotation (-1, 0, 0)))) := by
    unfold updateSensors
    rw [if_neg hguard]
    exact sortHits_head _
  have h3 : (updateSensors E s).sensorRight =
      minDist (s.obstacles.flatMap
        (E.intersect (sensorWorldPos E s (1, 0.5, 0)) (applyY E s.carRotation (1, 0, 0)))) := by
    unfold updateSensors
    rw [if_neg hguard]
    exact sortHits_head _
  refine ⟨h1, h2, h3, ?_⟩
  intro hobs
  rw [h1, h2, h3, hobs]
  exact ⟨rfl, rfl, rfl⟩

/-- Witness for claim C7: with the car set up and no obstacles, all
three sensor readings are `Infinity`. -/
theorem claim7_sensor_readings_witness :
    (updateSensors E0 wit5).sensorFront = none ∧
    (updateSensors E0 wit5).sensorLeft = none ∧
    (updateSensors E0 wit5).sensorRight = none :=
  (claim7_sensor_readings E0 wit5 rfl).2.2.2 rfl

/-- The guard of `updateSimulation`: a tick with no car or before
initialization leaves the state unchanged. -/
theorem updateSimulation_noop (E : ThreeMath) (delta : ℚ) (laneActive cruiseActive : Bool)
    (s : SimState) (h : s.car = false ∨ s.initialized = false) :
    updateSimulation E delta laneActive cruiseActive s = s := by
  unfold updateSimulation
  rw [if_pos h]

/-- The tick body never changes the road geometry, the setup flags or
the running flag. -/
theorem tickCore_proj (E : ThreeMath) (delta : ℚ) (laneActive cruiseActive : Bool)
    (s : SimState) :
    (tickCore E delta laneActive cruiseActive s).roadLength = s.roadLength ∧
    (tickCore E delta laneActive cruiseActive s).roadWidth = s.roadWidth ∧
    (tickCore E delta laneActive cruiseActive s).roadCurves = s.roadCurves ∧
    (tickCore E delta laneActive cruiseActive s).car = s.car ∧
    (tickCore E delta laneActive cruiseActive s).initialized = s.initialized ∧
    (tickCore E delta laneActive cruiseActive s).running = s.running ∧
    (tickCore E delta laneActive cruiseActive s).obstacles = s.obstacles := by
  unfold tickCore
  cases cruiseActive <;> cases laneActive <;> simp

/-- The kinematic content of the tick body: the speed is smoothed toward
the (possibly cruise-updated) target with factor 0.1 first, and the
position then advances by `newSpeed * delta * 20` along
`(sin(carRotation), 0, cos(carRotation))`. -/
theorem tickCore_fields (E : ThreeMath) (delta : ℚ) (laneActive cruiseActive : Bool)
    (s : SimState) :
    (tickCore E delta laneActive cruiseActive s).targetSpeed =
        (if cruiseActive then updateAdaptiveCruiseControl s else s).targetSpeed ∧
    (tickCore E delta laneActive cruiseActive s).carSpeed =
        s.carSpeed +
          ((if cruiseActive then updateAdaptiveCruiseControl s else s).targetSpeed -
            s.carSpeed) * 0.1 ∧
    (tickCore E delta laneActive cruiseActive s).carX =
        s.carX + E.sinF s.carRotation *
          ((s.carSpeed +
            ((if cruiseActive then updateAdaptiveCruiseControl s else s).targetSpeed -
              s.carSpeed) * 0.1) * delta * 20) ∧
    (tickCore E delta laneActive cruiseActive s).carY = s.carY ∧
    (tickCore E delta laneActive cruiseActive s).carZ =
        s.carZ + E.cosF s.carRotation *
          ((s.carSpeed +
            ((if cruiseActive then updateAdaptiveCruiseControl s else s).targetSpeed -
              s.carSpeed) * 0.1) * delta * 20) ∧
    (tickCore E delta laneActive cruiseActive s).distance =
        s.distance +
          (s.carSpeed +
            ((if cruiseActive then updateAdaptiveCruiseControl s else s).targetSpeed -
              s.carSpeed) * 0.1) * delta * 20 := by
  unfold tickCore
  cases cruiseActive <;> cases laneActive <;> simp

/-- When the guard passes, every field of the tick result except the
running flag is the corresponding field of the tick body. -/
theorem updateSimulation_proj (E : ThreeMath) (delta : ℚ) (laneActive cruiseActive : Bool)
    (s : SimState) (hcar : s.car = true) (hinit : s.initialized = true) :
    (updateSimulation E delta laneActive cruiseActive s).carSpeed =
        (tickCore E delta laneActive cruiseActive s).carSpeed ∧
    (updateSimulation E delta laneActive cruiseActive s).targetSpeed =
        (tickCore E delta laneActive cruiseActive s).targetSpeed ∧
    (updateSimulation E delta laneActive cruiseActive s).carX =
        (tickCore E delta laneActive cruiseActive s).carX ∧
    (updateSimulation E delta laneActive cruiseActive s).carY =
        (tickCore E delta laneActive cruiseActive s).carY ∧
    (updateSimulation E delta laneActive cruiseActive s).carZ =
        (tickCore E delta laneActive cruiseActive s).carZ ∧
    (updateSimulation E delta laneActive cruiseActive s).distance =
        (tickCore E delta laneActive cruiseActive s).distance ∧
    (updateSimulation E delta laneActive cruiseActive s).roadLength =
        (tickCore E delta laneActive cruiseActive s).roadLength := by
  unfold updateSimulation
  rw [if_neg (by simp [hcar, hinit])]
  dsimp only
  split <;> exact ⟨rfl, rfl, rfl, rfl, rfl, rfl, rfl⟩

/-- A tick never changes the configured road length. -/
theorem updateSimulation_roadLength (E : ThreeMath) (delta : ℚ)
    (laneActive cruiseActive : Bool) (s : SimState) :
    (updateSimulation E delta laneActive cruiseActive s).roadLength = s.roadLength := by
  by_cases hg : s.car = false ∨ s.initialized = false
  · rw [updateSimulation_noop E delta laneActive cruiseActive s hg]
  · have hcar : s.car = true := by
      cases hc : s.car
      · exact absurd (Or.inl hc) hg
      · rfl
    have hinit : s.initialized = true := by
      cases hi : s.initialized
      · exact absurd (Or.inr hi) hg
      · rfl
    rw [(updateSimulation_proj E delta laneActive cruiseActive s hcar hinit).2.2.2.2.2.2,
      (tickCore_proj E delta laneActive cruiseActive s).1]

/-- On a running, initialized state the tick result is running exactly
when the newly accumulated distance has not exceeded the road length. -/
theorem updateSimulation_running_iff (E : ThreeMath) (delta : ℚ)
    (laneActive cruiseActive : Bool) (s : SimState)
    (hcar : s.car = true) (hinit : s.initialized = true) (hrun : s.running = true) :
    ((updateSimulation E delta laneActive cruiseActive s).running = true ↔
      (updateSimulation E delta laneActive cruiseActive s).distance ≤ s.roadLength) := by
  have h4L : (tickCore E delta laneActive cruiseActive s).roadLength = s.roadLength :=
    (tickCore_proj E delta laneActive cruiseActive s).1
  have h4r : (tickCore E delta laneActive cruiseActive s).running = s.running :=
    (tickCore_proj E delta laneActive cruiseActive s).2.2.2.2.2.1
  unfold updateSimulation
  rw [if_neg (by simp [hcar, hinit])]
  dsimp only
  split
  next hgt =>
    constructor
    · intro hco
      exact absurd hco (by simp)
    · intro hle
      rw [h4L] at hgt
      exact absurd hle (not_le.mpr hgt)
  next hle =>
    constructor
    · intro _
      rw [← h4L]
      exact not_lt.mp hle
    · intro _
      rw [h4r]
      exact hrun

/-- Claim C5: on every tick (car present, initialized) with elapsed time
`delta`, the speed is first updated by
`carSpeed += (targetSpeed - carSpeed) * 0.1` (with the target as left by
the cruise step), and the position then advances by the distance step
`carSpeed * delta * 20` along the vector
`(sin(carRotation), 0, cos(carRotation))`; in particular with
`carSpeed = targetSpeed = 0.3` and `delta = 0.05` the distance step is
exactly 0.3. -/
theorem claim5_kinematics (E : ThreeMath) (delta : ℚ) (laneActive cruiseActive : Bool)
    (s : SimState) (hcar : s.car = true) (hinit : s.initialized = true) :
    let t := (if cruiseActive then updateAdaptiveCruiseControl s else s).targetSpeed
    let newSpeed := s.carSpeed + (t - s.carSpeed) * 0.1
    let step := newSpeed * delta * 20
    (updateSimulation E delta laneActive cruiseActive s).carSpeed = newSpeed ∧
    (updateSimulation E delta laneActive cruiseActive s).carX =
        s.carX + E.sinF s.carRotation * step ∧
    (updateSimulation E delta laneActive cruiseActive s).carY = s.carY ∧
    (updateSimulation E delta laneActive cruiseActive s).carZ =
        s.carZ + E.cosF s.carRotation * step ∧
    (updateSimulation E delta laneActive cruiseActive s).distance = s.distance + step ∧
    (s.carSpeed = 0.3 → t = 0.3 → delta = 0.05 → step = 0.3) := by
  intro t newSpeed step
  obtain ⟨hts, hcs, hx, hy, hz, hd⟩ := tickCore_fields E delta laneActive cruiseActive s
  obtain ⟨pcs, pts, px, py, pz, pd, _⟩ :=
    updateSimulation_proj E delta laneActive cruiseActive s hcar hinit
  refine ⟨?_, ?_, ?_, ?_, ?_, ?_⟩
  · rw [pcs]; exact hcs
  · rw [px]; exact hx
  · rw [py]; exact hy
  · rw [pz]; exact hz
  · rw [pd]; exact hd
  · intro h1 h2 h3
    show (s.carSpeed + (t - s.carSpeed) * 0.1) * delta * 20 = 0.3
    rw [h1, h2, h3]
    norm_num

/-- Witness for claim C5: starting from the initial converged state
(speed and target 0.3, heading 0) with `delta = 1/20 = 0.05`, the speed
stays 0.3 and the car advances exactly 0.3 along z. -/
theorem claim5_kinematics_witness :
    (updateSimulation E0 (1 / 20) false true wit5).carSpeed = 0.3 ∧
    (updateSimulation E0 (1 / 20) false true wit5).carZ = 0.3 := by
  obtain ⟨hcs, hx, hy, hz, hd, hp⟩ := claim5_kinematics E0 (1 / 20) false true wit5 rfl rfl
  constructor
  · rw [hcs]
    norm_num [wit5, init0, updateAdaptiveCruiseControl]
  · rw [hz]
    norm_num [wit5, init0, E0, updateAdaptiveCruiseControl]

/-- Claim C9: a tick executed on uninitialized state (no car object or
not initialized) leaves the state unchanged, lane keeping on an empty
segment list leaves the state unchanged, and the sensor update with no
car leaves the state unchanged — every per-tick operation depending on
uninitialized state is a total no-op rather than a failure. -/
theorem claim9_uninitialized_noop (E : ThreeMath) (delta : ℚ)
    (laneActive cruiseActive : Bool) (s : SimState) :
    (s.car = false ∨ s.initialized = false →
        updateSimulation E delta laneActive cruiseActive s = s) ∧
    (s.roadCurves = [] → updateLaneKeeping E s = s) ∧
    (s.car = false → updateSensors E s = s) := by
  refine ⟨?_, ?_, ?_⟩
  · intro h
    exact updateSimulation_noop E delta laneActive cruiseActive s h
  · intro h
    unfold updateLaneKeeping
    rw [if_pos (Or.inr h)]
  · intro h
    unfold updateSensors
    rw [if_pos h]

/-- Witness for claim C9: ticking the pristine pre-start state (no car,
not initialized, empty road) changes nothing. -/
theorem claim9_uninitialized_noop_witness :
    updateSimulation E0 1 true true init0 = init0 ∧
    updateLaneKeeping E0 init0 = init0 ∧
    updateSensors E0 init0 = init0 :=
  ⟨(claim9_uninitialized_noop E0 1 true true init0).1 (Or.inl rfl),
   (claim9_uninitialized_noop E0 1 true true init0).2.1 rfl,
   (claim9_uninitialized_noop E0 1 true true init0).2.2 rfl⟩

/-- Counterexample to claim C8 as stated: invoking start while the
simulation is already running is a guarded no-op — with accumulated
distance 5 and an empty segment list, nothing is regenerated and the
distance is not reset to 0. -/
theorem claim8_start_counterexample :
    handleStartSimulation E0 r0 cex8 = cex8 ∧
    (handleStartSimulation E0 r0 cex8).distance = 5 ∧
    (handleStartSimulation E0 r0 cex8).roadCurves = [] ∧
    (5 : ℚ) ≠ 0 := by
  refine ⟨rfl, rfl, rfl, by norm_num⟩

/-- Claim C8 (amended): invoking start while already running is a no-op
(the handler is guarded by `!isSimulationRunning` and the button is
disabled while running); only when invoked while not running does start
regenerate the road, reset the cumulative distance and the displayed
distance and speed to 0, reset the car pose, and set the running flag —
the internal `carSpeed` is left untouched. -/
theorem claim8_start_semantics (E : ThreeMath) (r : RandDraws) (s : SimState) :
    (s.running = true → handleStartSimulation E r s = s) ∧
    (s.running = false →
        (handleStartSimulation E r s).running = true ∧
        (handleStartSimulation E r s).distance = 0 ∧
        (handleStartSimulation E r s).dispDistance = 0 ∧
        (handleStartSimulation E r s).dispSpeed = 0 ∧
        (handleStartSimulation E r s).roadCurves =
            genCurves E r.curv (s.roadLength / 20) ∧
        (handleStartSimulation E r s).obstacles =
            placeObstacles E r.place r.sign s.roadWidth
              (genCurves E r.curv (s.roadLength / 20)) ∧
        (handleStartSimulation E r s).carX = 0 ∧
        (handleStartSimulation E r s).carZ = 0 ∧
        (handleStartSimulation E r s).carRotation = 0 ∧
        (handleStartSimulation E r s).carSpeed = s.carSpeed) := by
  constructor
  · intro h
    unfold handleStartSimulation
    rw [if_pos h]
  · intro h
    unfold handleStartSimulation
    rw [if_neg (by simp [h])]
    exact ⟨rfl, rfl, rfl, rfl, rfl, rfl, rfl, rfl, rfl, rfl⟩

/-- Witness for claim C8 (amended): start on a running state is the
identity; start on the pristine stopped state resets the distance and
sets the running flag. -/
theorem claim8_start_semantics_witness :
    handleStartSimulation E0 r0 cex8 = cex8 ∧
    (handleStartSimulation E0 r0 init0).distance = 0 ∧
    (handleStartSimulation E0 r0 init0).running = true :=
  ⟨(claim8_start_semantics E0 r0 cex8).1 rfl,
   ((claim8_start_semantics E0 r0 init0).2 rfl).2.1,
   ((claim8_start_semantics E0 r0 init0).2 rfl).1⟩

/-- A frame never changes the configured road length. -/
theorem frameStep_roadLength (E : ThreeMath) (delta : ℚ) (laneActive cruiseActive : Bool)
    (s : SimState) :
    (frameStep E delta laneActive cruiseActive s).roadLength = s.roadLength := by
  unfold frameStep
  split
  · exact updateSimulation_roadLength E delta laneActive cruiseActive s
  · rfl

/-- The road length is constant along any frame trace. -/
theorem runFrames_roadLength (E : ThreeMath) (u : ℕ → ℚ × Bool × Bool) (s0 : SimState) :
    ∀ k, (runFrames E u s0 k).roadLength = s0.roadLength := by
  intro k
  induction k with
  | zero => rfl
  | succ m ih =>
      show (frameStep E (u m).1 (u m).2.1 (u m).2.2 (runFrames E u s0 m)).roadLength = _
      rw [frameStep_roadLength, ih]

/-- Claim C4: starting a run in the Running state with the distance not
yet beyond the road length, the simulation is still Running after `k`
frames exactly when no prefix of the trace has accumulated distance
exceeding the road length — it transitions to Stopped at precisely the
first frame whose accumulated distance exceeds the configured road
length, and never stops on distance before that frame. -/
theorem claim4_stop_on_distance (E : ThreeMath) (u : ℕ → ℚ × Bool × Bool) (s0 : SimState)
    (hrun : s0.running = true) (hdist : s0.distance ≤ s0.roadLength) :
    ∀ k, ((runFrames E u s0 k).running = true ↔
      ∀ j, j ≤ k → (runFrames E u s0 j).distance ≤ s0.roadLength) := by
  intro k
  induction k with
  | zero =>
      constructor
      · intro _ j hj
        have hj0 : j = 0 := Nat.le_zero.mp hj
        rw [hj0]
        exact hdist
      · intro _
        exact hrun
  | succ m ih =>
      by_cases ha : (runFrames E u s0 m).running = true
      · have hAll := ih.mp ha
        have hstep : runFrames E u s0 (m + 1) =
            frameStep E (u m).1 (u m).2.1 (u m).2.2 (runFrames E u s0 m) := rfl
        have key : ((runFrames E u s0 (m + 1)).running = true ↔
            (runFrames E u s0 (m + 1)).distance ≤ s0.roadLength) := by
          by_cases hg : (runFrames E u s0 m).car = true ∧
              (runFrames E u s0 m).initialized = true
          · have hru : runFrames E u s0 (m + 1) =
                updateSimulation E (u m).1 (u m).2.1 (u m).2.2 (runFrames E u s0 m) := by
              rw [hstep]
              unfold frameStep
              rw [if_pos ha]
            have hiff := updateSimulation_running_iff E (u m).1 (u m).2.1 (u m).2.2
              (runFrames E u s0 m) hg.1 hg.2 ha
            rw [runFrames_roadLength E u s0 m] at hiff
            rw [hru]
            exact hiff
          · have hor : (runFrames E u s0 m).car = false ∨
                (runFrames E u s0 m).initialized = false := by
              cases hc : (runFrames E u s0 m).car
              · exact Or.inl rfl
              · cases hi : (runFrames E u s0 m).initialized
                · exact Or.inr rfl
                · exact absurd ⟨hc, hi⟩ hg
            have hid : runFrames E u s0 (m + 1) = runFrames E u s0 m := by
              rw [hstep]
              unfold frameStep
              rw [if_pos ha]
              exact updateSimulation_noop E (u m).1 (u m).2.1 (u m).2.2 _ hor
            rw [hid]
            constructor
            · intro _
              exact hAll m le_rfl
            · intro _
              exact ha
        constructor
        · intro h j hj
          by_cases hjm : j ≤ m
          · exact hAll j hjm
          · have hj1 : j = m + 1 := by omega
            rw [hj1]
            exact key.mp h
        · intro h
          exact key.mpr (h (m + 1) le_rfl)
      · have hid : runFrames E u s0 (m + 1) = runFrames E u s0 m := by
          show frameStep E (u m).1 (u m).2.1 (u m).2.2 (runFrames E u s0 m) = _
          unfold frameStep
          rw [if_neg ha]
        rw [hid]
        exact iff_of_false ha (fun h => ha (ih.mpr fun j hj => h j (by omega)))

/-- Witness for claim C4: after one frame from the initialized running
start state the simulation is still Running, since the accumulated
distance (0.3) is below the road length (500). -/
theorem claim4_stop_on_distance_witness :
    (runFrames E0 u0 wit5 1).running = true := by
  apply (claim4_stop_on_distance E0 u0 wit5 rfl (by norm_num [wit5, init0]) 1).mpr
  intro j hj
  interval_cases j
  · norm_num [runFrames, wit5, init0]
  · have hstep : runFrames E0 u0 wit5 1 = updateSimulation E0 (1 / 20) true true wit5 := by
      show frameStep E0 (u0 0).1 (u0 0).2.1 (u0 0).2.2 wit5 = _
      rfl
    have hd := (updateSimulation_proj E0 (1 / 20) true true wit5 rfl rfl).2.2.2.2.2.1
    have ht := (tickCore_fields E0 (1 / 20) true true wit5).2.2.2.2.2
    rw [hstep, hd, ht]
    norm_num [wit5, init0, updateAdaptiveCruiseControl]

/-- The cruise-control output always lies in [0.03, 0.3]: the factor
`max(0.1, d/10)` is at least 0.1 always and at most 1 whenever the
branch `d < 10` is taken. -/
theorem updateAdaptiveCruiseControl_targetSpeed_bounds (s : SimState) :
    0.03 ≤ (updateAdaptiveCruiseControl s).targetSpeed ∧
    (updateAdaptiveCruiseControl s).targetSpeed ≤ 0.3 := by
  unfold updateAdaptiveCruiseControl
  cases s.sensorFront with
  | none => norm_num
  | some d =>
      dsimp only
      by_cases hd : d < 10
      · rw [if_pos hd]
        dsimp only
        constructor
        · nlinarith [le_max_left (0.1 : ℚ) (d / 10)]
        · have h2 : max (0.1 : ℚ) (d / 10) ≤ 1 := by
            apply max_le
            · norm_num
            · linarith
          nlinarith [h2]
      · rw [if_neg hd]
        dsimp only
        norm_num

/-- Exponential smoothing with factor 0.1 is a convex combination and
preserves the interval [0.03, 0.3]. -/
theorem smoothing_bounds (v t : ℚ) (hv1 : 0.03 ≤ v) (hv2 : v ≤ 0.3)
    (ht1 : 0.03 ≤ t) (ht2 : t ≤ 0.3) :
    0.03 ≤ v + (t - v) * 0.1 ∧ v + (t - v) * 0.1 ≤ 0.3 := by
  constructor <;> nlinarith

/-- Every event — frame, start, stop, init — keeps the current speed and
the target speed inside [0.03, 0.3]. -/
theorem stepEv_speed_bounds (E : ThreeMath) (s : SimState) (e : Ev)
    (h1 : 0.03 ≤ s.carSpeed) (h2 : s.carSpeed ≤ 0.3)
    (h3 : 0.03 ≤ s.targetSpeed) (h4 : s.targetSpeed ≤ 0.3) :
    0.03 ≤ (stepEv E s e).carSpeed ∧ (stepEv E s e).carSpeed ≤ 0.3 ∧
    0.03 ≤ (stepEv E s e).targetSpeed ∧ (stepEv E s e).targetSpeed ≤ 0.3 := by
  cases e with
  | frame delta laneActive cruiseActive =>
      show 0.03 ≤ (frameStep E delta laneActive cruiseActive s).carSpeed ∧
        (frameStep E delta laneActive cruiseActive s).carSpeed ≤ 0.3 ∧
        0.03 ≤ (frameStep E delta laneActive cruiseActive s).targetSpeed ∧
        (frameStep E delta laneActive cruiseActive s).targetSpeed ≤ 0.3
      by_cases hr : s.running = true
      · by_cases hg : s.car = false ∨ s.initialized = false
        · have hfs : frameStep E delta laneActive cruiseActive s = s := by
            unfold frameStep
            rw [if_pos hr]
            exact updateSimulation_noop E delta laneActive cruiseActive s hg
          rw [hfs]
          exact ⟨h1, h2, h3, h4⟩
        · have hcar : s.car = true := by
            cases hc : s.car
            · exact absurd (Or.inl hc) hg
            · rfl
          have hinit : s.initialized = true := by
            cases hi : s.initialized
            · exact absurd (Or.inr hi) hg
            · rfl
          have hfs : frameStep E delta laneActive cruiseActive s =
              updateSimulation E delta laneActive cruiseActive s := by
            unfold frameStep
            rw [if_pos hr]
          rw [hfs]
          obtain ⟨pcs, pts, _, _, _, _, _⟩ :=
            updateSimulation_proj E delta laneActive cruiseActive s hcar hinit
          obtain ⟨hts, hcs, _, _, _, _⟩ := tickCore_fields E delta laneActive cruiseActive s
          rw [pcs, hcs, pts, hts]
          have htb : 0.03 ≤ (if cruiseActive then updateAdaptiveCruiseControl s else s).targetSpeed ∧
              (if cruiseActive then updateAdaptiveCruiseControl s else s).targetSpeed ≤ 0.3 := by
            cases cruiseActive
            · simpa using ⟨h3, h4⟩
            · simpa using updateAdaptiveCruiseControl_targetSpeed_bounds s
          obtain ⟨hsm1, hsm2⟩ :=
            smoothing_bounds s.carSpeed _ h1 h2 htb.1 htb.2
          exact ⟨hsm1, hsm2, htb.1, htb.2⟩
      · have hfs : frameStep E delta laneActive cruiseActive s = s := by
          unfold frameStep
          rw [if_neg hr]
        rw [hfs]
        exact ⟨h1, h2, h3, h4⟩
  | start r =>
      show 0.03 ≤ (handleStartSimulation E r s).carSpeed ∧
        (handleStartSimulation E r s).carSpeed ≤ 0.3 ∧
        0.03 ≤ (handleStartSimulation E r s).targetSpeed ∧
        (handleStartSimulation E r s).targetSpeed ≤ 0.3
      unfold handleStartSimulation
      split
      · exact ⟨h1, h2, h3, h4⟩
      · exact ⟨h1, h2, h3, h4⟩
  | stop =>
      show 0.03 ≤ (handleStopSimulation s).carSpeed ∧
        (handleStopSimulation s).carSpeed ≤ 0.3 ∧
        0.03 ≤ (handleStopSimulation s).targetSpeed ∧
        (handleStopSimulation s).targetSpeed ≤ 0.3
      unfold handleStopSimulation
      split
      · exact ⟨h1, h2, h3, h4⟩
      · exact ⟨h1, h2, h3, h4⟩
  | init r =>
      exact ⟨h1, h2, h3, h4⟩

/-- Speed bounds are preserved along any event trace. -/
theorem runEvs_speed_bounds (E : ThreeMath) (evs : List Ev) :
    ∀ (s : SimState), 0.03 ≤ s.carSpeed → s.carSpeed ≤ 0.3 →
      0.03 ≤ s.targetSpeed → s.targetSpeed ≤ 0.3 →
      0.03 ≤ (runEvs E s evs).carSpeed ∧ (runEvs E s evs).carSpeed ≤ 0.3 ∧
      0.03 ≤ (runEvs E s evs).targetSpeed ∧ (runEvs E s evs).targetSpeed ≤ 0.3 := by
  induction evs with
  | nil =>
      intro s h1 h2 h3 h4
      exact ⟨h1, h2, h3, h4⟩
  | cons e rest ih =>
      intro s h1 h2 h3 h4
      have hstep := stepEv_speed_bounds E s e h1 h2 h3 h4
      exact ih (stepEv E s e) hstep.1 hstep.2.1 hstep.2.2.1 hstep.2.2.2

/-- Claim C10: both the current speed and the target speed start at 0.3
and stay within [0.03, 0.3] throughout every run — under any sequence of
frames, start, stop and init events the cruise policy only ever produces
targets in [0.03, 0.3] and the smoothing step is a convex combination
preserving the interval, so the vehicle never stops and never exceeds
the base speed. -/
theorem claim10_speed_invariant (E : ThreeMath) (evs : List Ev) :
    init0.carSpeed = 0.3 ∧ init0.targetSpeed = 0.3 ∧
    0.03 ≤ (runEvs E init0 evs).carSpeed ∧ (runEvs E init0 evs).carSpeed ≤ 0.3 ∧
    0.03 ≤ (runEvs E init0 evs).targetSpeed ∧ (runEvs E init0 evs).targetSpeed ≤ 0.3 := by
  have h := runEvs_speed_bounds E evs init0 (by norm_num [init0]) (by norm_num [init0])
    (by norm_num [init0]) (by norm_num [init0])
  exact ⟨rfl, rfl, h.1, h.2.1, h.2.2.1, h.2.2.2⟩
